import Mathlib

/-!
# openage: change forwarding, render hand-off, controller and error reporting

A shallow embedding of
* `libopenage/main/tests/gamestate.cpp` (the pong entities),
* `libopenage/gamestate/game_entity.cpp`,
* `libopenage/renderer/stages/world/world_renderer.cpp`,
* `libopenage/input/controller.h`,
* `libopenage/error/error.cpp`.

Calls that leave the translated functions (the `changes` signal of an event
target, `WorldRenderEntity::update`, the clock, the methods of `WorldObject`)
are either recorded in a call log carried by the state or taken as parameters.
-/

namespace Openage

/-! ## Pong entities (`main/tests/gamestate.cpp`) -/

namespace Pong

/-- Width of `size_t` on the 64-bit targets the engine is built for. -/
def SIZE_BITS : Nat := 64

/-- Left shift of a `size_t`: bits shifted past the top are dropped. -/
def shl (x k : Nat) : Nat := (x * 2 ^ k) % 2 ^ SIZE_BITS

/-- Addition of two `size_t` values (wraps around). -/
def add (x y : Nat) : Nat := (x + y) % 2 ^ SIZE_BITS

/-- The two value-evolution policies of a curve. -/
inductive CurveKind where
  | discrete
  | continuous
  deriving DecidableEq, Repr

/-- What the constructors in `gamestate.cpp` pass to a curve: its kind, its
numeric identity and its debug name.  Every curve of an entity is bound to
that entity's `child_changes` handler. -/
structure Curve where
  kind : CurveKind
  id : Nat
  name : String
  deriving DecidableEq, Repr

/-- Modelled from the spec: the `EventTarget` base class is declared outside
the translated sources.  Its `changes` signal is what "upstream code may
subscribe to"; the model keeps the times the signal was invoked with, oldest
first. -/
structure EventTarget (T : Type) where
  emitted : List T

/-- Modelled from the spec: one invocation of the event target's own
`changes` signal with `time`. -/
def EventTarget.changes {T : Type} (time : T) (et : EventTarget T) : EventTarget T :=
  { emitted := et.emitted ++ [time] }

/-- The class `PongPlayer`. -/
structure PongPlayer (T : Type) where
  base : EventTarget T
  speed : Curve
  position : Curve
  lives : Curve
  state : Curve
  size : Curve
  _id : Nat
  paddle_x : Int

/-- The constructor `PongPlayer::PongPlayer(mgr, id)`. -/
def PongPlayer.new (T : Type) (id : Nat) : PongPlayer T :=
  { base := { emitted := [] }
    speed := ⟨.discrete, add (shl id 4) 1, "PongPlayer(" ++ toString id ++ ").speed"⟩
    position := ⟨.continuous, add (shl id 4) 2, "PongPlayer(" ++ toString id ++ ").position"⟩
    lives := ⟨.discrete, add (shl id 4) 3, "PongPlayer(" ++ toString id ++ ").lives"⟩
    state := ⟨.discrete, add (shl id 4) 4, "PongPlayer(" ++ toString id ++ ").state"⟩
    size := ⟨.discrete, add (shl id 4) 5, "PongPlayer(" ++ toString id ++ ").size"⟩
    _id := id
    paddle_x := 0 }

/-- The method `PongPlayer::id`. -/
def PongPlayer.id {T : Type} (p : PongPlayer T) : Nat := p._id

/-- The curves owned by a player, in declaration order. -/
def PongPlayer.curves {T : Type} (p : PongPlayer T) : List Curve :=
  [p.speed, p.position, p.lives, p.state, p.size]

/-- The method `PongPlayer::child_changes(time)`: `this->changes(time)`. -/
def PongPlayer.child_changes {T : Type} (time : T) (p : PongPlayer T) : PongPlayer T :=
  { p with base := p.base.changes time }

/-- The class `PongBall`. -/
structure PongBall (T : Type) where
  base : EventTarget T
  speed : Curve
  position : Curve
  _id : Nat

/-- The constructor `PongBall::PongBall(mgr, id)`. -/
def PongBall.new (T : Type) (id : Nat) : PongBall T :=
  { base := { emitted := [] }
    speed := ⟨.discrete, add (shl id 2) 1, "PongBall(" ++ toString id ++ ").speed"⟩
    position := ⟨.continuous, add (shl id 2) 2, "PongBall(" ++ toString id ++ ").position"⟩
    _id := id }

/-- The method `PongBall::id`. -/
def PongBall.id {T : Type} (b : PongBall T) : Nat := b._id

/-- The curves owned by a ball, in declaration order. -/
def PongBall.curves {T : Type} (b : PongBall T) : List Curve :=
  [b.speed, b.position]

/-- The method `PongBall::child_changes(time)`: `this->changes(time)`. -/
def PongBall.child_changes {T : Type} (time : T) (b : PongBall T) : PongBall T :=
  { b with base := b.base.changes time }

/-- The class `PongState` (the gui handle carries no curve and is left out). -/
structure PongState (T : Type) where
  p1 : PongPlayer T
  p2 : PongPlayer T
  ball : PongBall T

/-- The constructor `PongState::PongState(mgr, gui)`. -/
def PongState.new (T : Type) : PongState T :=
  { p1 := PongPlayer.new T 0
    p2 := PongPlayer.new T 1
    ball := PongBall.new T 2 }

/-- Every curve created while a `PongState` is constructed. -/
def PongState.curves {T : Type} (s : PongState T) : List Curve :=
  s.p1.curves ++ s.p2.curves ++ s.ball.curves

/-- The handler bound to the curves of a player, run once per entry of
`times` (one entry per reporting child curve, in call order). -/
def PongPlayer.report {T : Type} (times : List T) (p : PongPlayer T) : PongPlayer T :=
  times.foldl (fun q t => q.child_changes t) p

/-- The handler bound to the curves of a ball, run once per entry of `times`. -/
def PongBall.report {T : Type} (times : List T) (b : PongBall T) : PongBall T :=
  times.foldl (fun q t => q.child_changes t) b

end Pong

/-! ## Game entities (`gamestate/game_entity.cpp`) -/

namespace Gamestate

/-- One call of `WorldRenderEntity::update(id, pos, texture_path)`, made on
the render entity `target`.  The class `WorldRenderEntity` lives in the
renderer and is only called from here, so the call is recorded. -/
structure RenderUpdate (V P : Type) where
  target : Nat
  id : Nat
  pos : V
  texture_path : P
  deriving DecidableEq, Repr

/-- The class `GameEntity`.  `V` is `util::Vector3f`, `P` is `util::Path`;
`render_entity` is the shared pointer (`none` is `nullptr`, `some a` points to
the render entity `a`). -/
structure GameEntity (V P : Type) where
  id : Nat
  pos : V
  texture_path : P
  render_entity : Option Nat
  deriving DecidableEq, Repr

/-- The constructor `GameEntity::GameEntity(id, pos, texture_path)`. -/
def GameEntity.new {V P : Type} (id : Nat) (pos : V) (texture_path : P) : GameEntity V P :=
  { id := id, pos := pos, texture_path := texture_path, render_entity := none }

/-- The method `GameEntity::push_to_render()`.  `calls` holds the calls made
on render entities so far, oldest first. -/
def GameEntity.push_to_render {V P : Type} (g : GameEntity V P)
    (calls : List (RenderUpdate V P)) : GameEntity V P × List (RenderUpdate V P) :=
  match g.render_entity with
  | some r => (g, calls ++ [⟨r, g.id, g.pos, g.texture_path⟩])
  | none => (g, calls)

/-- The method `GameEntity::set_render_entity(entity)`. -/
def GameEntity.set_render_entity {V P : Type} (entity : Option Nat) (g : GameEntity V P)
    (calls : List (RenderUpdate V P)) : GameEntity V P × List (RenderUpdate V P) :=
  GameEntity.push_to_render { g with render_entity := entity } calls

end Gamestate

/-! ## Controllers (`input/controller.h`) -/

namespace Input

/-- The class `Controller`: the set of controllable factions and the active
faction. -/
structure Controller where
  controlled_factions : Finset Nat
  active_faction_id : Nat

/-- The constructor `Controller::Controller(controlled_factions, active_faction_id)`. -/
def Controller.new (controlled_factions : Finset Nat) (active_faction_id : Nat) : Controller :=
  { controlled_factions := controlled_factions, active_faction_id := active_faction_id }

/-- Modelled from the spec: the body of `Controller::set_control` is not among
the translated sources (only its declaration is).  Its documentation says the
ID "must be in the list of controlled factions" and the spec calls it an
access-control check (faction ownership): an ID that is controlled becomes
the active faction, any other ID is refused and changes nothing. -/
def Controller.set_control (faction_id : Nat) (c : Controller) : Controller :=
  if faction_id ∈ c.controlled_factions then
    { c with active_faction_id := faction_id }
  else c

/-- Modelled from the spec: the body of `Controller::get_controlled` is not
among the translated sources; its documentation says it returns the ID of the
active faction. -/
def Controller.get_controlled (c : Controller) : Nat := c.active_faction_id

/-- A sequence of `set_control` calls, first element first. -/
def Controller.set_controls (ids : List Nat) (c : Controller) : Controller :=
  ids.foldl (fun d f => d.set_control f) c

end Input

/-! ## World render stage (`renderer/stages/world/world_renderer.cpp`) -/

namespace Renderer

/-- The only value of `Eigen::Matrix4f` the render stage builds. -/
inductive Matrix4f where
  | identity
  deriving DecidableEq, Repr

/-- The uniform input built by `display_shader->new_uniform_input("view", …,
"proj", …, "tex", …, "u_id", …)`. -/
structure UniformInput where
  view : Matrix4f
  proj : Matrix4f
  tex : Nat
  u_id : Nat
  deriving DecidableEq, Repr

/-- The struct `Renderable` as brace-initialised in `WorldRenderer::update`. -/
structure Renderable where
  uniform : UniformInput
  geometry : Nat
  alpha_blending : Bool
  depth_test : Bool
  deriving DecidableEq, Repr

/-- The methods of `WorldObject` and of `event::Clock` used by the render
stage.  Both classes are declared outside the translated sources, so their
behaviour is a parameter: `Obj` is the state of one world object, `Clk` the
state of the clock, `T` the time type. -/
structure Collaborators (Obj Clk T : Type) where
  get_real_time : Clk → T × Clk
  create : Nat → Obj
  set_render_entity : Nat → Obj → Obj
  set_camera : Nat → Obj → Obj
  update : T → Obj → Obj
  is_changed : Obj → Bool
  requires_renderable : Obj → Bool
  get_texture : Obj → Nat
  get_id : Obj → Nat
  clear_requires_renderable : Obj → Obj
  set_uniforms : UniformInput → Obj → Obj
  update_uniforms : T → Obj → Obj

/-- The calls `WorldRenderer::update` makes on its collaborators that take or
return a time; `idx` is the position of the object in `render_objects`. -/
inductive Call (T : Type) where
  | get_real_time (result : T)
  | obj_update (idx : Nat) (time : T)
  | update_uniforms (idx : Nat) (time : T)
  deriving DecidableEq, Repr

/-- The class `WorldRenderer`: the members `update` and `add_render_entity`
touch.  `render_pass` is the list of renderables of `this->render_pass`,
`calls` the calls made so far, oldest first. -/
structure WorldRenderer (Obj Clk T : Type) where
  camera : Nat
  asset_manager : Nat
  render_objects : List Obj
  clock : Clk
  default_geometry : Nat
  render_pass : List Renderable
  calls : List (Call T)

/-- The method `WorldRenderer::add_render_entity(entity)`. -/
def WorldRenderer.add_render_entity {Obj Clk T : Type} (C : Collaborators Obj Clk T)
    (entity : Nat) (w : WorldRenderer Obj Clk T) : WorldRenderer Obj Clk T :=
  let world_object := C.create w.asset_manager
  let world_object := C.set_render_entity entity world_object
  let world_object := C.set_camera w.camera world_object
  { w with render_objects := w.render_objects ++ [world_object] }

/-- What one iteration of the loop in `WorldRenderer::update` leaves behind. -/
structure Step (Obj T : Type) where
  obj : Obj
  added : List Renderable
  calls : List (Call T)

/-- The body of the loop in `WorldRenderer::update` for the object at
position `idx`. -/
def update_object {Obj Clk T : Type} (C : Collaborators Obj Clk T) (default_geometry : Nat)
    (current_time : T) (idx : Nat) (obj : Obj) : Step Obj T :=
  let obj := C.update current_time obj
  let calls := [Call.obj_update idx current_time]
  if C.is_changed obj then
    if C.requires_renderable obj then
      let transform_unifs : UniformInput :=
        { view := .identity, proj := .identity, tex := C.get_texture obj, u_id := C.get_id obj }
      let display_obj : Renderable :=
        { uniform := transform_unifs, geometry := default_geometry,
          alpha_blending := true, depth_test := true }
      let obj := C.clear_requires_renderable obj
      let obj := C.set_uniforms transform_unifs obj
      let obj := C.update_uniforms current_time obj
      { obj := obj, added := [display_obj],
        calls := calls ++ [Call.update_uniforms idx current_time] }
    else { obj := obj, added := [], calls := calls }
  else { obj := obj, added := [], calls := calls }

/-- The loop `for (auto obj : this->render_objects)` of `WorldRenderer::update`,
started at position `idx`: the objects after the loop, the renderables added
to the render pass and the calls made, all in iteration order. -/
def update_loop {Obj Clk T : Type} (C : Collaborators Obj Clk T) (default_geometry : Nat)
    (current_time : T) : Nat → List Obj → List Obj × List Renderable × List (Call T)
  | _, [] => ([], [], [])
  | idx, obj :: rest =>
    let s := update_object C default_geometry current_time idx obj
    let r := update_loop C default_geometry current_time (idx + 1) rest
    (s.obj :: r.1, s.added ++ r.2.1, s.calls ++ r.2.2)

/-- The method `WorldRenderer::update()`. -/
def WorldRenderer.update {Obj Clk T : Type} (C : Collaborators Obj Clk T)
    (w : WorldRenderer Obj Clk T) : WorldRenderer Obj Clk T :=
  let now := C.get_real_time w.clock
  let current_time := now.1
  let r := update_loop C w.default_geometry current_time 0 w.render_objects
  { w with
    clock := now.2
    render_objects := r.1
    render_pass := w.render_pass ++ r.2.1
    calls := w.calls ++ [Call.get_real_time current_time] ++ r.2.2 }

/-- The renderables the call `update()` adds to the render pass of `w`. -/
def WorldRenderer.added {Obj Clk T : Type} (C : Collaborators Obj Clk T)
    (w : WorldRenderer Obj Clk T) : List Renderable :=
  (update_loop C w.default_geometry (C.get_real_time w.clock).1 0 w.render_objects).2.1

/-- The calls the call `update()` makes on the collaborators of `w`. -/
def WorldRenderer.made {Obj Clk T : Type} (C : Collaborators Obj Clk T)
    (w : WorldRenderer Obj Clk T) : List (Call T) :=
  Call.get_real_time (C.get_real_time w.clock).1 ::
    (update_loop C w.default_geometry (C.get_real_time w.clock).1 0 w.render_objects).2.2

/-- Whether the loop body adds a renderable for `obj` at time `t`: after its
own `update(t)` the object is changed and requires a renderable. -/
def gets_renderable {Obj Clk T : Type} (C : Collaborators Obj Clk T) (t : T) (obj : Obj) : Bool :=
  C.is_changed (C.update t obj) && C.requires_renderable (C.update t obj)

/-- The renderable the loop body builds for `obj` at time `t`. -/
def renderable_of {Obj Clk T : Type} (C : Collaborators Obj Clk T) (default_geometry : Nat)
    (t : T) (obj : Obj) : Renderable :=
  { uniform := { view := .identity, proj := .identity,
                 tex := C.get_texture (C.update t obj), u_id := C.get_id (C.update t obj) }
    geometry := default_geometry, alpha_blending := true, depth_test := true }

/-- Whether a recorded call is a reading of the clock. -/
def Call.is_clock_read {T : Type} : Call T → Bool
  | .get_real_time _ => true
  | _ => false

/-- The object position and time of a recorded `obj->update(time)`. -/
def Call.as_obj_update {T : Type} : Call T → Option (Nat × T)
  | .obj_update idx time => some (idx, time)
  | _ => none

/-- The object position and time of a recorded `obj->update_uniforms(time)`. -/
def Call.as_update_uniforms {T : Type} : Call T → Option (Nat × T)
  | .update_uniforms idx time => some (idx, time)
  | _ => none

/-- The world object `add_render_entity` builds for `entity`. -/
def object_for {Obj Clk T : Type} (C : Collaborators Obj Clk T)
    (w : WorldRenderer Obj Clk T) (entity : Nat) : Obj :=
  C.set_camera w.camera (C.set_render_entity entity (C.create w.asset_manager))

/-- What the names of three `WorldObject` methods promise about the
requires-renderable flag: `clear_requires_renderable` clears it, and
`set_uniforms` and `update_uniforms` leave it alone. -/
def FlagRespected {Obj Clk T : Type} (C : Collaborators Obj Clk T) : Prop :=
  (∀ o, C.requires_renderable (C.clear_requires_renderable o) = false) ∧
  (∀ u o, C.requires_renderable (C.set_uniforms u o) = C.requires_renderable o) ∧
  (∀ t o, C.requires_renderable (C.update_uniforms t o) = C.requires_renderable o)

/-- In `update()` at time `t` no object of `objs` newly requires a renderable:
`obj->update(t)` does not raise the flag of an object that had it cleared. -/
def NoneNewlyRequires {Obj Clk T : Type} (C : Collaborators Obj Clk T) (t : T)
    (objs : List Obj) : Prop :=
  ∀ o ∈ objs, C.requires_renderable (C.update t o) = true → C.requires_renderable o = true

/-- A world object for trying the render stage out: two flags, the time from
which its render entity has data for it, its texture and its id. -/
structure SampleObject where
  changed : Bool
  require_renderable : Bool
  ready_at : Nat
  texture : Nat
  id : Nat
  deriving DecidableEq, Repr

/-- Collaborators for trying the render stage out: the clock counts the calls
of `get_real_time`, and `update(time)` marks an object as changed once its
render entity has data (`ready_at ≤ time`). -/
def sample : Collaborators SampleObject Nat Nat :=
  { get_real_time := fun c => (c, c + 1)
    create := fun _ => ⟨false, true, 0, 0, 0⟩
    set_render_entity := fun e o => { o with id := e, texture := e }
    set_camera := fun _ o => o
    update := fun t o => if o.ready_at ≤ t then { o with changed := true } else o
    is_changed := fun o => o.changed
    requires_renderable := fun o => o.require_renderable
    get_texture := fun o => o.texture
    get_id := fun o => o.id
    clear_requires_renderable := fun o => { o with require_renderable := false }
    set_uniforms := fun _ o => o
    update_uniforms := fun _ o => o }

/-- A render stage with the clock at `0` and one object that requires a
renderable and whose render entity has data from time `1` on. -/
def sample_renderer : WorldRenderer SampleObject Nat Nat :=
  { camera := 0, asset_manager := 0
    render_objects := [⟨false, true, 1, 7, 3⟩]
    clock := 0, default_geometry := 0, render_pass := [], calls := [] }

/-- A render stage with the clock at `0` and two objects whose render
entities have data from the start; only the first requires a renderable. -/
def sample_ready : WorldRenderer SampleObject Nat Nat :=
  { camera := 0, asset_manager := 0
    render_objects := [⟨false, true, 0, 7, 3⟩, ⟨false, false, 0, 8, 4⟩]
    clock := 0, default_geometry := 0, render_pass := [], calls := [] }

end Renderer

/-! ## Errors (`error/error.cpp`) -/

namespace Errors

/-- The members of `log::message` that `error.cpp` reads. -/
structure Message where
  filename : String
  lineno : Nat
  functionname : String
  text : String
  deriving DecidableEq, Repr

mutual

/-- The class `Error` (and its subclasses): the message, the shared pointer
to the backtrace (`none` is null), the stored cause, and the name of the
dynamic type as `util::typestring(*this)` gives it.  `B` is the state of a
`StackAnalyzer`. -/
inductive Error (B : Type) where
  | mk (msg : Message) (backtrace : Option B) (cause : ExceptionPtr B) (dyn_type : String)

/-- A `std::exception_ptr`, split by the handler that catches the exception it
points to: nothing, an `Error`, another `std::exception` (name of its type and
its `what()`), or anything else. -/
inductive ExceptionPtr (B : Type) where
  | null
  | error (e : Error B)
  | std_exception (type_name : String) (what : String)
  | unknown

end

/-- The member `msg`. -/
def Error.msg {B : Type} : Error B → Message
  | .mk msg _ _ _ => msg

/-- The member `backtrace`. -/
def Error.backtrace {B : Type} : Error B → Option B
  | .mk _ backtrace _ _ => backtrace

/-- The member `cause`. -/
def Error.cause {B : Type} : Error B → ExceptionPtr B
  | .mk _ _ cause _ => cause

/-- Whether an exception pointer is non-null (its conversion to `bool`). -/
def ExceptionPtr.is_set {B : Type} : ExceptionPtr B → Bool
  | .null => false
  | _ => true

/-- What `stackanalyzer.h` and the printer of `backtrace_symbol` do; both are
declared outside the translated sources.  `analyze` is the analyzer after
`make_shared<StackAnalyzer>()` and `analyze()`, `trim` is
`trim_to_current_stack_frame`, `print` and `print_symbol` are the two stream
operators. -/
structure Backtraces (B : Type) where
  analyze : B
  trim : B → B
  print : B → String
  print_symbol : String → Nat → String → String

/-- What the constructor reads from its surroundings: the flag
`enable_break_on_create` and `std::current_exception()`. -/
structure Ambient (B : Type) where
  enable_break_on_create : Bool
  current_exception : ExceptionPtr B

/-- The method `Error::trim_backtrace()`. -/
def Error.trim_backtrace {B : Type} (K : Backtraces B) : Error B → Error B
  | .mk msg (some b) cause ty => .mk msg (some (K.trim b)) cause ty
  | .mk msg none cause ty => .mk msg none cause ty

/-- The method `Error::store_cause()`.  The exception in flight is rethrown
and caught again; an `Error` has its backtrace trimmed first, and the stored
pointer refers to that same (trimmed) object. -/
def Error.store_cause {B : Type} (K : Backtraces B) (current_exception : ExceptionPtr B) :
    Error B → Error B
  | .mk msg backtrace cause ty =>
    match current_exception with
    | .null => .mk msg backtrace cause ty
    | .error c => .mk msg backtrace (.error (c.trim_backtrace K)) ty
    | .std_exception n w => .mk msg backtrace (.std_exception n w) ty
    | .unknown => .mk msg backtrace .unknown ty

/-- The constructor `Error::Error(msg, generate_backtrace, store_cause)`, for
an object whose dynamic type is named `dyn_type`.  `BREAKPOINT` only stops the
program under a debugger and leaves the object as it is. -/
def Error.new {B : Type} (K : Backtraces B) (env : Ambient B) (dyn_type : String)
    (msg : Message) (generate_backtrace store_cause : Bool) : Error B :=
  let this : Error B := .mk msg none .null dyn_type
  let this := if env.enable_break_on_create then this else this
  let this :=
    if generate_backtrace then
      match this with
      | .mk m _ c ty => Error.mk m (some K.analyze) c ty
    else this
  if store_cause then this.store_cause K env.current_exception else this

/-- The member function `std::string::c_str()` as its caller reads the
result: a `const char *` is a text that ends at the first NUL character, so
what comes after an embedded NUL is not part of it. -/
def c_str (s : String) : String :=
  String.mk (s.data.takeWhile (fun c => c != Char.ofNat 0))

/-- The method `Error::what()`: `this->msg.text.c_str()`. -/
def Error.what {B : Type} (e : Error B) : String := c_str e.msg.text

/-- The method `Error::type_name()`. -/
def Error.type_name {B : Type} : Error B → String
  | .mk _ _ _ ty => ty

/-- The method `Error::rethrow_cause()`: throws the stored cause when there is
one, returns normally otherwise. -/
def Error.rethrow_cause {B : Type} (e : Error B) : Except (ExceptionPtr B) Unit :=
  if e.cause.is_set then .error e.cause else .ok ()

/-- What `std::endl` writes. -/
def endl : String := "\n"

/-- The line that separates a cause from the error it caused. -/
def cause_line : String :=
  "The above exception was the direct cause of the following exception:"

/-- The second half of the stream operator, after the cause has been dealt
with: the backtrace (or `origin:`), the location stored in the message, the
type name, and the message text when it is not empty. -/
def print_own {B : Type} (K : Backtraces B) (msg : Message) (backtrace : Option B)
    (type_name : String) : String :=
  let os := match backtrace with
    | some b => K.print b
    | none => "origin:" ++ endl
  let os := os ++ K.print_symbol msg.filename msg.lineno msg.functionname ++ endl
  let os := os ++ type_name
  if ¬ msg.text.isEmpty then os ++ (": " ++ msg.text) else os

mutual

/-- The stream operator `operator<<(std::ostream &, const Error &)`: the text
it appends to the stream. -/
def print {B : Type} (K : Backtraces B) : Error B → String
  | .mk msg backtrace cause ty =>
    let r := print_cause K cause
    let os := r.1
    let os := if r.2 then os ++ (endl ++ cause_line ++ endl ++ endl) else os
    os ++ print_own K msg backtrace ty

/-- The `try` block of the stream operator around `e.rethrow_cause()` with its
three handlers: the text written and the final value of `had_a_cause`. -/
def print_cause {B : Type} (K : Backtraces B) : ExceptionPtr B → String × Bool
  | .null => ("", false)
  | .error c => (print K c ++ endl, true)
  | .std_exception n w => (n ++ ": " ++ w ++ endl, true)
  | .unknown => ("unknown non std::exception cause!" ++ endl, true)

end

/-- The text `sub` occurs in the text `s`. -/
def Occurs (sub s : String) : Prop := sub.data <:+: s.data

/-- The text `s` ends with the text `suf`. -/
def EndsWith (s suf : String) : Prop := suf.data <:+ s.data

/-- The separating line as it stands in the output, between two line ends. -/
def cause_line_in_output : String := endl ++ cause_line ++ endl

/-- Backtrace facilities for trying the error class out: a backtrace is a
list of frame names, trimming drops the innermost frame, and a location is
printed as function name and file name. -/
def sample_backtraces : Backtraces (List String) :=
  { analyze := ["main", "run"]
    trim := fun b => b.dropLast
    print := fun b => "Traceback:" ++ endl ++ String.join (b.map (fun f => f ++ endl))
    print_symbol := fun filename _ functionname => functionname ++ " in " ++ filename }

/-- An error without a cause whose message text quotes the separating line. -/
def quoting_error : Error (List String) :=
  .mk ⟨"game.cpp", 12, "run", "seen before:" ++ endl ++ cause_line ++ endl⟩ none .null
    "openage::error::Error"

end Errors

/-! # Theorems -/

namespace Pong

theorem report_player_emitted {T : Type} (times : List T) (p : PongPlayer T) :
    (p.report times).base.emitted = p.base.emitted ++ times := by
  induction times generalizing p with
  | nil => simp [PongPlayer.report]
  | cons t ts ih =>
    have h := ih (p.child_changes t)
    simp only [PongPlayer.report, List.foldl_cons] at h ⊢
    rw [h]
    simp [PongPlayer.child_changes, EventTarget.changes]

theorem report_ball_emitted {T : Type} (times : List T) (b : PongBall T) :
    (b.report times).base.emitted = b.base.emitted ++ times := by
  induction times generalizing b with
  | nil => simp [PongBall.report]
  | cons t ts ih =>
    have h := ih (b.child_changes t)
    simp only [PongBall.report, List.foldl_cons] at h ⊢
    rw [h]
    simp [PongBall.child_changes, EventTarget.changes]

/-- C1: `PongPlayer::child_changes(t)` and `PongBall::child_changes(t)` invoke
the event target's `changes` signal exactly once, with the time `t` they were
given, and leave every other member as it was. -/
theorem child_changes_forwards {T : Type} (t : T) (p : PongPlayer T) (b : PongBall T) :
    p.child_changes t = { p with base := { emitted := p.base.emitted ++ [t] } } ∧
    b.child_changes t = { b with base := { emitted := b.base.emitted ++ [t] } } ∧
    (p.child_changes t).base.emitted.length = p.base.emitted.length + 1 ∧
    (b.child_changes t).base.emitted.length = b.base.emitted.length + 1 := by
  simp [PongPlayer.child_changes, PongBall.child_changes, EventTarget.changes]

/-- C2, as stated, fails: two sibling curves of a fresh player reporting a
change at the same time `7` make the handler emit two `changes` signals, not
one; the same holds for a fresh ball. -/
theorem coalescing_fails :
    ((PongPlayer.new Nat 0).report [7, 7]).base.emitted = [7, 7] ∧
    ((PongPlayer.new Nat 0).report [7, 7]).base.emitted.length ≠ 1 ∧
    ((PongBall.new Nat 2).report [7, 7]).base.emitted = [7, 7] ∧
    ((PongBall.new Nat 2).report [7, 7]).base.emitted.length ≠ 1 := by
  simp [report_player_emitted, report_ball_emitted, PongPlayer.new, PongBall.new]

/-- C2, amended: the handler does not coalesce.  When two sibling curves of an
event target report a change at the same time `t`, the entity emits one
`changes` signal per report, each with `t`: two signals for two reports, and
in general as many signals as there were reports, in the order of the
reports. -/
theorem no_coalescing {T : Type} (t : T) (times : List T) (p : PongPlayer T) (b : PongBall T) :
    (p.report [t, t]).base.emitted = p.base.emitted ++ [t, t] ∧
    (b.report [t, t]).base.emitted = b.base.emitted ++ [t, t] ∧
    (p.report times).base.emitted = p.base.emitted ++ times ∧
    (b.report times).base.emitted = b.base.emitted ++ times :=
  ⟨report_player_emitted _ p, report_ball_emitted _ b,
   report_player_emitted _ p, report_ball_emitted _ b⟩

/-- C9: the twelve curves created by `PongState` (players 0 and 1, ball 2) have
pairwise distinct ids; and for player ids `a ≠ b` below `2^60` and `k`, `k'`
in `1..5`, `(a << 4) + k` and `(b << 4) + k'` differ in 64-bit unsigned
arithmetic. -/
theorem curve_ids_unique (T : Type) :
    ((PongState.new T).curves.map Curve.id).length = 12 ∧
    ((PongState.new T).curves.map Curve.id).Nodup ∧
    ∀ a b k k' : Nat, a ≠ b → a < 2 ^ 60 → b < 2 ^ 60 →
      1 ≤ k → k ≤ 5 → 1 ≤ k' → k' ≤ 5 →
      add (shl a 4) k ≠ add (shl b 4) k' := by
  refine ⟨by simp [PongState.new, PongState.curves, PongPlayer.curves, PongBall.curves], ?_, ?_⟩
  · simp [PongState.new, PongState.curves, PongPlayer.curves, PongBall.curves,
      PongPlayer.new, PongBall.new, add, shl, SIZE_BITS]
  · intro a b k k' hab ha hb hk1 hk5 hk1' hk5'
    simp only [add, shl, SIZE_BITS]
    omega

/-- C9 at player ids `0` and `1`: the last curve id of player 0 and the first
curve id of player 1 differ. -/
theorem curve_ids_unique_witness :
    add (shl 0 4) 5 ≠ add (shl 1 4) 1 :=
  (curve_ids_unique Nat).2.2 0 1 5 1 (by decide) (by decide) (by decide)
    (by decide) (by decide) (by decide) (by decide)

end Pong

namespace Gamestate

/-- C3: for every entity and every non-null render entity `e`,
`set_render_entity(e)` stores `e` and makes exactly one call, `e.update` with
the entity's `(id, pos, texture_path)`; and `push_to_render()` on an entity
whose render entity is null makes no call at all. -/
theorem attach_pushes_once {V P : Type} (g : GameEntity V P) (e : Nat)
    (calls : List (RenderUpdate V P)) :
    (g.set_render_entity (some e) calls).1.render_entity = some e ∧
    (g.set_render_entity (some e) calls).2 = calls ++ [⟨e, g.id, g.pos, g.texture_path⟩] ∧
    (g.render_entity = none → (g.push_to_render calls).2 = calls) := by
  refine ⟨rfl, rfl, ?_⟩
  intro h
  simp [GameEntity.push_to_render, h]

/-- C3 on a freshly constructed entity, whose render entity is null. -/
theorem attach_pushes_once_witness :
    (GameEntity.new 4 (1, 2, 3) "tex" : GameEntity (Nat × Nat × Nat) String).render_entity = none ∧
    ((GameEntity.new 4 (1, 2, 3) "tex" : GameEntity (Nat × Nat × Nat) String).push_to_render []).2
      = [] :=
  ⟨rfl, (attach_pushes_once (GameEntity.new 4 (1, 2, 3) "tex") 9 []).2.2 rfl⟩

/-- C4: `push_to_render()` leaves `id`, `pos`, `texture_path` and
`render_entity` unchanged; `set_render_entity(e)` changes only `render_entity`
(to `e`), so that an entity built by the constructor keeps the `id`, `pos` and
`texture_path` it was given. -/
theorem render_handoff_frame {V P : Type} (g : GameEntity V P) (e : Option Nat)
    (calls : List (RenderUpdate V P)) (id : Nat) (pos : V) (texture_path : P) :
    (g.push_to_render calls).1 = g ∧
    (g.set_render_entity e calls).1 = { g with render_entity := e } ∧
    ((GameEntity.new id pos texture_path).push_to_render calls).1
      = ⟨id, pos, texture_path, none⟩ ∧
    ((GameEntity.new id pos texture_path).set_render_entity e calls).1
      = ⟨id, pos, texture_path, e⟩ := by
  have hp : ∀ h : GameEntity V P, (h.push_to_render calls).1 = h := by
    intro h
    unfold GameEntity.push_to_render
    cases h.render_entity <;> rfl
  refine ⟨hp g, ?_, ?_, ?_⟩
  · simp only [GameEntity.set_render_entity]; exact hp _
  · rw [hp]; rfl
  · simp only [GameEntity.set_render_entity]; rw [hp]; rfl

end Gamestate

namespace Input

theorem set_control_factions (f : Nat) (c : Controller) :
    (c.set_control f).controlled_factions = c.controlled_factions := by
  unfold Controller.set_control
  split <;> rfl

theorem set_control_active (f : Nat) (c : Controller)
    (h : c.active_faction_id ∈ c.controlled_factions) :
    (c.set_control f).active_faction_id ∈ c.controlled_factions := by
  unfold Controller.set_control
  split
  · assumption
  · exact h

theorem set_controls_invariant (ids : List Nat) (c : Controller)
    (h : c.active_faction_id ∈ c.controlled_factions) :
    (c.set_controls ids).controlled_factions = c.controlled_factions ∧
    (c.set_controls ids).active_faction_id ∈ c.controlled_factions := by
  induction ids generalizing c with
  | nil => exact ⟨rfl, h⟩
  | cons f fs ih =>
    have h1 := set_control_active f c h
    rw [← set_control_factions f c] at h1
    have h2 := ih (c.set_control f) h1
    simp only [Controller.set_controls, List.foldl_cons] at h2 ⊢
    rw [set_control_factions] at h2
    exact h2

/-- C6: for a controller whose active faction is one of its controlled
factions, after any sequence of `set_control` calls `get_controlled()` returns
an ID from the (unchanged) set of controlled factions; and `set_control(f)`
with `f` among the controlled factions makes `get_controlled()` return `f`. -/
theorem controlled_stays_owned (c : Controller) (ids : List Nat) (f : Nat)
    (h : c.active_faction_id ∈ c.controlled_factions) (hf : f ∈ c.controlled_factions) :
    (c.set_controls ids).get_controlled ∈ c.controlled_factions ∧
    (c.set_controls ids).controlled_factions = c.controlled_factions ∧
    (c.set_control f).get_controlled = f ∧
    ((c.set_controls ids).set_control f).get_controlled = f := by
  have hi := set_controls_invariant ids c h
  refine ⟨hi.2, hi.1, ?_, ?_⟩
  · simp [Controller.set_control, Controller.get_controlled, hf]
  · have hf' : f ∈ (c.set_controls ids).controlled_factions := by rw [hi.1]; exact hf
    simp [Controller.set_control, Controller.get_controlled, hf']

/-- C6 on a controller of factions `1, 2, 3` with faction `1` active: a
refused switch to `5` and a switch to `3` are followed by a switch to `2`. -/
theorem controlled_stays_owned_witness :
    (((Controller.new {1, 2, 3} 1).set_controls [5, 3]).get_controlled ∈ ({1, 2, 3} : Finset Nat)) ∧
    ((Controller.new {1, 2, 3} 1).set_control 2).get_controlled = 2 :=
  have h := controlled_stays_owned (Controller.new {1, 2, 3} 1) [5, 3] 2 (by decide) (by decide)
  ⟨h.1, h.2.2.1⟩

end Input

namespace Renderer

theorem update_object_added {Obj Clk T : Type} (C : Collaborators Obj Clk T) (g : Nat)
    (t : T) (idx : Nat) (o : Obj) :
    (update_object C g t idx o).added
      = if gets_renderable C t o then [renderable_of C g t o] else [] := by
  unfold update_object gets_renderable renderable_of
  cases h1 : C.is_changed (C.update t o) <;> cases h2 : C.requires_renderable (C.update t o) <;>
    simp [h1, h2]

theorem update_object_obj {Obj Clk T : Type} (C : Collaborators Obj Clk T) (g : Nat)
    (t : T) (idx : Nat) (o : Obj) :
    (update_object C g t idx o).obj
      = if gets_renderable C t o then
          C.update_uniforms t (C.set_uniforms (renderable_of C g t o).uniform
            (C.clear_requires_renderable (C.update t o)))
        else C.update t o := by
  unfold update_object gets_renderable renderable_of
  cases h1 : C.is_changed (C.update t o) <;> cases h2 : C.requires_renderable (C.update t o) <;>
    simp [h1, h2]

theorem update_object_calls {Obj Clk T : Type} (C : Collaborators Obj Clk T) (g : Nat)
    (t : T) (idx : Nat) (o : Obj) :
    (update_object C g t idx o).calls
      = if gets_renderable C t o then [Call.obj_update idx t, Call.update_uniforms idx t]
        else [Call.obj_update idx t] := by
  unfold update_object gets_renderable
  cases h1 : C.is_changed (C.update t o) <;> cases h2 : C.requires_renderable (C.update t o) <;>
    simp [h1, h2]

theorem update_loop_added {Obj Clk T : Type} (C : Collaborators Obj Clk T) (g : Nat)
    (t : T) (idx : Nat) (objs : List Obj) :
    (update_loop C g t idx objs).2.1
      = (objs.filter (gets_renderable C t)).map (renderable_of C g t) := by
  induction objs generalizing idx with
  | nil => rfl
  | cons o rest ih =>
    simp only [update_loop, ih, update_object_added, List.filter_cons]
    cases gets_renderable C t o <;> simp

theorem update_loop_length {Obj Clk T : Type} (C : Collaborators Obj Clk T) (g : Nat)
    (t : T) (idx : Nat) (objs : List Obj) :
    (update_loop C g t idx objs).1.length = objs.length := by
  induction objs generalizing idx with
  | nil => rfl
  | cons o rest ih => simp [update_loop, ih]

theorem update_loop_get {Obj Clk T : Type} (C : Collaborators Obj Clk T) (g : Nat)
    (t : T) (idx : Nat) (objs : List Obj) (i : Nat) (o : Obj) (h : objs[i]? = some o) :
    (update_loop C g t idx objs).1[i]? = some (update_object C g t (idx + i) o).obj := by
  induction objs generalizing idx i with
  | nil => simp at h
  | cons x rest ih =>
    cases i with
    | zero =>
      simp only [List.getElem?_cons_zero, Option.some.injEq] at h
      simp [update_loop, h]
    | succ j =>
      simp only [List.getElem?_cons_succ] at h
      have := ih (idx + 1) j h
      simp only [update_loop, List.getElem?_cons_succ, this]
      congr 3
      omega

theorem update_loop_clock_reads {Obj Clk T : Type} (C : Collaborators Obj Clk T) (g : Nat)
    (t : T) (idx : Nat) (objs : List Obj) :
    (update_loop C g t idx objs).2.2.filter Call.is_clock_read = [] := by
  induction objs generalizing idx with
  | nil => rfl
  | cons o rest ih =>
    simp only [update_loop, List.filter_append, ih, update_object_calls]
    cases gets_renderable C t o <;> simp [Call.is_clock_read]

theorem update_loop_obj_updates {Obj Clk T : Type} (C : Collaborators Obj Clk T) (g : Nat)
    (t : T) (idx : Nat) (objs : List Obj) :
    (update_loop C g t idx objs).2.2.filterMap Call.as_obj_update
      = (List.range' idx objs.length).map (fun i => (i, t)) := by
  induction objs generalizing idx with
  | nil => rfl
  | cons o rest ih =>
    simp only [update_loop, List.filterMap_append, ih, update_object_calls, List.length_cons,
      List.range'_succ, List.map_cons]
    cases gets_renderable C t o <;> simp [Call.as_obj_update]

theorem update_loop_uniform_updates {Obj Clk T : Type} (C : Collaborators Obj Clk T) (g : Nat)
    (t : T) (idx : Nat) (objs : List Obj) :
    ∀ x ∈ (update_loop C g t idx objs).2.2.filterMap Call.as_update_uniforms, x.2 = t := by
  induction objs generalizing idx with
  | nil => intro x hx; simp [update_loop] at hx
  | cons o rest ih =>
    intro x hx
    simp only [update_loop, List.filterMap_append, List.mem_append, update_object_calls] at hx
    rcases hx with hx | hx
    · cases hg : gets_renderable C t o <;> simp [hg, Call.as_update_uniforms] at hx
      rw [hx]
    · exact ih _ x hx

theorem add_render_entities {Obj Clk T : Type} (C : Collaborators Obj Clk T)
    (es : List Nat) (w : WorldRenderer Obj Clk T) :
    (es.foldl (fun v e => v.add_render_entity C e) w).render_objects
      = w.render_objects ++ es.map (object_for C w) := by
  induction es generalizing w with
  | nil => simp
  | cons e rest ih =>
    simp only [List.foldl_cons, List.map_cons]
    rw [ih]
    simp [WorldRenderer.add_render_entity, object_for]

theorem update_loop_objs {Obj Clk T : Type} (C : Collaborators Obj Clk T) (g : Nat)
    (t : T) (idx : Nat) (objs : List Obj) :
    (update_loop C g t idx objs).1
      = objs.map (fun o =>
          if gets_renderable C t o then
            C.update_uniforms t (C.set_uniforms
              ⟨.identity, .identity, C.get_texture (C.update t o), C.get_id (C.update t o)⟩
              (C.clear_requires_renderable (C.update t o)))
          else C.update t o) := by
  induction objs generalizing idx with
  | nil => rfl
  | cons o rest ih =>
    simp only [update_loop, ih, update_object_obj, List.map_cons, renderable_of]

/-- C5: one call of `update()` reads the clock exactly once (the clock is left
in the state after that one reading), and then runs `update` on every render
object, in the order of `render_objects` (which is the order in which
`add_render_entity` appended them), each with the time that one reading
returned: every object of the stage ends up as its `update(time)` result, with
`clear_requires_renderable`, `set_uniforms` and `update_uniforms(time)` on top
where it got a renderable, and the recorded calls show one clock reading and
the one same time in every `update` and `update_uniforms` call. -/
theorem update_hands_out_one_time {Obj Clk T : Type} (C : Collaborators Obj Clk T)
    (w : WorldRenderer Obj Clk T) (es : List Nat) :
    (w.update C).calls = w.calls ++ w.made C ∧
    (w.made C).filter Call.is_clock_read = [Call.get_real_time (C.get_real_time w.clock).1] ∧
    (w.made C).filterMap Call.as_obj_update
      = (List.range w.render_objects.length).map (fun i => (i, (C.get_real_time w.clock).1)) ∧
    (∀ x ∈ (w.made C).filterMap Call.as_update_uniforms, x.2 = (C.get_real_time w.clock).1) ∧
    (w.update C).render_objects.length = w.render_objects.length ∧
    (es.foldl (fun v e => v.add_render_entity C e) w).render_objects
      = w.render_objects ++ es.map (object_for C w) ∧
    (w.update C).clock = (C.get_real_time w.clock).2 ∧
    (w.update C).render_objects
      = w.render_objects.map (fun o =>
          if gets_renderable C (C.get_real_time w.clock).1 o then
            C.update_uniforms (C.get_real_time w.clock).1 (C.set_uniforms
              ⟨.identity, .identity, C.get_texture (C.update (C.get_real_time w.clock).1 o),
                C.get_id (C.update (C.get_real_time w.clock).1 o)⟩
              (C.clear_requires_renderable (C.update (C.get_real_time w.clock).1 o)))
          else C.update (C.get_real_time w.clock).1 o) ∧
    (w.update C).render_pass
      = w.render_pass ++
        (w.render_objects.filter (gets_renderable C (C.get_real_time w.clock).1)).map
          (renderable_of C w.default_geometry (C.get_real_time w.clock).1) ∧
    (w.update C).camera = w.camera ∧
    (w.update C).asset_manager = w.asset_manager ∧
    (w.update C).default_geometry = w.default_geometry := by
  refine ⟨?_, ?_, ?_, ?_, ?_, add_render_entities C es w, rfl, ?_, ?_, rfl, rfl, rfl⟩
  · simp [WorldRenderer.update, WorldRenderer.made]
  · simp [WorldRenderer.made, Call.is_clock_read, update_loop_clock_reads]
  · simp [WorldRenderer.made, Call.as_obj_update, update_loop_obj_updates, List.range_eq_range']
  · intro x hx
    simp only [WorldRenderer.made, List.filterMap_cons, Call.as_update_uniforms] at hx
    exact update_loop_uniform_updates C _ _ _ _ x hx
  · simp [WorldRenderer.update, update_loop_length]
  · simp only [WorldRenderer.update]
    exact update_loop_objs C _ _ 0 _
  · simp only [WorldRenderer.update, update_loop_added]

end Renderer

namespace Renderer

theorem update_get {Obj Clk T : Type} (C : Collaborators Obj Clk T)
    (w : WorldRenderer Obj Clk T) (i : Nat) (o : Obj) (h : w.render_objects[i]? = some o) :
    (w.update C).render_objects[i]?
      = some (update_object C w.default_geometry (C.get_real_time w.clock).1 (0 + i) o).obj := by
  simp only [WorldRenderer.update]
  exact update_loop_get C _ _ 0 _ i o h

theorem flag_after_update {Obj Clk T : Type} (C : Collaborators Obj Clk T)
    (hC : FlagRespected C) (g : Nat) (t : T) (idx : Nat) (o : Obj)
    (h : gets_renderable C t o = true) :
    C.requires_renderable (update_object C g t idx o).obj = false := by
  rw [update_object_obj, if_pos h, hC.2.2, hC.2.1, hC.1]

/-- C8, amended: one `update()` call adds to the render pass exactly one
renderable for each render object that, after its own `update(time)`, is both
changed and requires a renderable, and none for any other object.  When
`clear_requires_renderable` clears the flag and the uniform setters leave it
alone, each object that got a renderable ends the call with the flag cleared,
so in an immediately following `update()` in which no object newly requires a
renderable, no object that got a renderable in the first call gets another
one; and that following call adds no renderables at all when every object
that required a renderable in the first call was changed then. -/
theorem renderables_added_once {Obj Clk T : Type} (C : Collaborators Obj Clk T)
    (w : WorldRenderer Obj Clk T) :
    (w.update C).render_pass = w.render_pass ++ w.added C ∧
    w.added C = (w.render_objects.filter (gets_renderable C (C.get_real_time w.clock).1)).map
      (renderable_of C w.default_geometry (C.get_real_time w.clock).1) ∧
    (FlagRespected C → ∀ (i : Nat) (o o' : Obj), w.render_objects[i]? = some o →
      (w.update C).render_objects[i]? = some o' →
      gets_renderable C (C.get_real_time w.clock).1 o = true →
      C.requires_renderable o' = false) ∧
    (FlagRespected C →
      NoneNewlyRequires C (C.get_real_time (w.update C).clock).1 (w.update C).render_objects →
      ∀ (i : Nat) (o o' : Obj), w.render_objects[i]? = some o →
        (w.update C).render_objects[i]? = some o' →
        gets_renderable C (C.get_real_time w.clock).1 o = true →
        gets_renderable C (C.get_real_time (w.update C).clock).1 o' = false) ∧
    (FlagRespected C →
      NoneNewlyRequires C (C.get_real_time (w.update C).clock).1 (w.update C).render_objects →
      (∀ o ∈ w.render_objects,
        C.requires_renderable (C.update (C.get_real_time w.clock).1 o) = true →
        C.is_changed (C.update (C.get_real_time w.clock).1 o) = true) →
      (w.update C).added C = []) := by
  have hflag : FlagRespected C → ∀ (i : Nat) (o o' : Obj), w.render_objects[i]? = some o →
      (w.update C).render_objects[i]? = some o' →
      gets_renderable C (C.get_real_time w.clock).1 o = true →
      C.requires_renderable o' = false := by
    intro hC i o o' ho ho' hg
    rw [update_get C w i o ho] at ho'
    cases ho'
    exact flag_after_update C hC _ _ _ o hg
  refine ⟨?_, ?_, hflag, ?_, ?_⟩
  · simp [WorldRenderer.update, WorldRenderer.added]
  · simp [WorldRenderer.added, update_loop_added]
  · intro hC hN i o o' ho ho' hg
    have hf := hflag hC i o o' ho ho' hg
    have hmem : o' ∈ (w.update C).render_objects := List.getElem?_mem ho'
    cases hr : C.requires_renderable (C.update (C.get_real_time (w.update C).clock).1 o')
    · simp [gets_renderable, hr]
    · rw [hN o' hmem hr] at hf
      cases hf
  · intro hC hN hall
    simp only [WorldRenderer.added, update_loop_added, List.map_eq_nil_iff, List.filter_eq_nil_iff]
    intro o' hmem
    obtain ⟨i, ho'⟩ := List.mem_iff_getElem?.mp hmem
    have hi : i < (w.update C).render_objects.length := by
      rcases Nat.lt_or_ge i (w.update C).render_objects.length with h | h
      · exact h
      · rw [List.getElem?_eq_none h] at ho'
        cases ho'
    have hlen : i < w.render_objects.length := by
      have : (w.update C).render_objects.length = w.render_objects.length := by
        simp [WorldRenderer.update, update_loop_length]
      omega
    have ho : w.render_objects[i]? = some (w.render_objects[i]) := List.getElem?_eq_getElem hlen
    have hreq : C.requires_renderable o' = false := by
      cases hg : gets_renderable C (C.get_real_time w.clock).1 (w.render_objects[i])
      · have h2 := update_get C w i _ ho
        rw [ho'] at h2
        cases h2
        rw [update_object_obj, hg]
        simp only [Bool.false_eq_true, if_false]
        cases hr : C.requires_renderable (C.update (C.get_real_time w.clock).1 (w.render_objects[i]))
        · rfl
        · have hc := hall _ (List.getElem_mem hlen) hr
          simp [gets_renderable, hr, hc] at hg
      · exact hflag hC i _ o' ho ho' hg
    cases hr : C.requires_renderable (C.update (C.get_real_time (w.update C).clock).1 o')
    · simp [gets_renderable, hr]
    · rw [hN o' hmem hr] at hreq
      cases hreq

end Renderer

namespace Renderer

theorem sample_flag_respected : FlagRespected sample :=
  ⟨fun _ => rfl, fun _ _ => rfl, fun _ _ => rfl⟩

theorem sample_none_newly_requires (t : Nat) (objs : List SampleObject) :
    NoneNewlyRequires sample t objs := by
  intro o _ h
  simp only [sample] at h ⊢
  split at h <;> exact h

/-- C8, as stated, fails: with a clearing `clear_requires_renderable`, an
object that requires a renderable but is not changed during the first
`update()` gets none then; in the immediately following `update()` no object
newly requires a renderable, and yet one renderable is added. -/
theorem following_update_still_adds :
    FlagRespected sample ∧
    sample_renderer.added sample = [] ∧
    NoneNewlyRequires sample (sample.get_real_time (sample_renderer.update sample).clock).1
      (sample_renderer.update sample).render_objects ∧
    (sample_renderer.update sample).added sample
      = [⟨⟨.identity, .identity, 7, 3⟩, 0, true, true⟩] ∧
    (sample_renderer.update sample).added sample ≠ [] :=
  ⟨sample_flag_respected, by decide, sample_none_newly_requires _ _, by decide, by decide⟩

/-- C8, amended, on a render stage with two objects that are changed by the
first `update()`, only the first of which requires a renderable: the first
call adds one renderable, the following call none. -/
theorem renderables_added_once_witness :
    sample_ready.added sample = [⟨⟨.identity, .identity, 7, 3⟩, 0, true, true⟩] ∧
    (sample_ready.update sample).added sample = [] :=
  ⟨by decide,
   (renderables_added_once sample sample_ready).2.2.2.2 sample_flag_respected
    (sample_none_newly_requires _ _) (by decide)⟩

end Renderer

namespace Errors

theorem c_str_of_no_nul (s : String) (h : Char.ofNat 0 ∉ s.data) : c_str s = s := by
  have hall : ∀ c ∈ s.data, (c != Char.ofNat 0) = true := by
    intro c hc
    simp only [bne_iff_ne, ne_eq]
    intro h0
    exact h (h0 ▸ hc)
  unfold c_str
  rw [List.takeWhile_eq_self_iff.mpr hall]

/-- C7, as stated, fails: an error whose message text holds a NUL character
has a `what()` that stops before the NUL, so `what()` is not the message
text. -/
theorem what_stops_at_nul :
    (Error.new sample_backtraces ⟨false, .null⟩ "openage::error::Error"
      ⟨"game.cpp", 12, "run", "ab\x00cd"⟩ true true).what = "ab" ∧
    (Error.new sample_backtraces ⟨false, .null⟩ "openage::error::Error"
      ⟨"game.cpp", 12, "run", "ab\x00cd"⟩ true true).what ≠ "ab\x00cd" := by
  constructor <;> decide

/-- C7, amended: an `Error` built by `Error(msg, generate_backtrace,
store_cause)` has a non-null backtrace if and only if `generate_backtrace` is
true; its `what()` is `msg.text` read as a C string (the text before the first
NUL character), which is `msg.text` itself whenever the text holds no NUL
character; and when no exception is in flight at construction its cause stays
empty, so that `rethrow_cause()` returns without throwing. -/
theorem error_construction {B : Type} (K : Backtraces B) (env : Ambient B) (dyn_type : String)
    (msg : Message) (generate_backtrace store_cause : Bool) :
    ((Error.new K env dyn_type msg generate_backtrace store_cause).backtrace.isSome = true
      ↔ generate_backtrace = true) ∧
    (Error.new K env dyn_type msg generate_backtrace store_cause).what = c_str msg.text ∧
    (Char.ofNat 0 ∉ msg.text.data →
      (Error.new K env dyn_type msg generate_backtrace store_cause).what = msg.text) ∧
    (env.current_exception = .null →
      (Error.new K env dyn_type msg generate_backtrace store_cause).cause = .null ∧
      (Error.new K env dyn_type msg generate_backtrace store_cause).rethrow_cause = .ok ()) := by
  rcases env with ⟨brk, cur⟩
  have hw : (Error.new K ⟨brk, cur⟩ dyn_type msg generate_backtrace store_cause).what
      = c_str msg.text := by
    cases generate_backtrace <;> cases store_cause <;> cases cur <;>
      simp [Error.new, Error.store_cause, Error.what, Error.msg]
  refine ⟨?_, hw, ?_, ?_⟩
  · cases generate_backtrace <;> cases store_cause <;> cases cur <;>
      simp [Error.new, Error.store_cause, Error.backtrace]
  · intro h
    rw [hw, c_str_of_no_nul _ h]
  · intro h
    simp only at h
    subst h
    cases generate_backtrace <;> cases store_cause <;>
      simp [Error.new, Error.store_cause, Error.cause, Error.rethrow_cause, ExceptionPtr.is_set]

/-- C7, amended, for an error built with both flags set while no exception is
in flight, with a message text that holds no NUL character. -/
theorem error_construction_witness :
    (Error.new sample_backtraces ⟨false, .null⟩ "openage::error::Error"
      ⟨"game.cpp", 12, "run", "no data"⟩ true true).what = "no data" ∧
    (Error.new sample_backtraces ⟨false, .null⟩ "openage::error::Error"
      ⟨"game.cpp", 12, "run", "no data"⟩ true true).rethrow_cause = .ok () :=
  ⟨(error_construction sample_backtraces ⟨false, .null⟩ "openage::error::Error"
      ⟨"game.cpp", 12, "run", "no data"⟩ true true).2.2.1 (by decide),
   ((error_construction sample_backtraces ⟨false, .null⟩ "openage::error::Error"
      ⟨"game.cpp", 12, "run", "no data"⟩ true true).2.2.2 rfl).2⟩

theorem print_eq {B : Type} (K : Backtraces B) (e : Error B) :
    print K e = (print_cause K e.cause).1
      ++ (if (print_cause K e.cause).2 then endl ++ cause_line ++ endl ++ endl else "")
      ++ print_own K e.msg e.backtrace e.type_name := by
  cases e with
  | mk msg backtrace cause ty =>
    rw [print]
    simp only [Error.cause, Error.msg, Error.backtrace, Error.type_name]
    split <;> simp

theorem had_a_cause_eq {B : Type} (K : Backtraces B) (c : ExceptionPtr B) :
    (print_cause K c).2 = c.is_set := by
  cases c <;> simp [print_cause, ExceptionPtr.is_set]

theorem print_own_eq {B : Type} (K : Backtraces B) (msg : Message) (backtrace : Option B)
    (ty : String) :
    ∃ pre, print_own K msg backtrace ty
      = pre ++ (ty ++ if msg.text.isEmpty then "" else ": " ++ msg.text) := by
  refine ⟨(match backtrace with
    | some b => K.print b
    | none => "origin:" ++ endl) ++ K.print_symbol msg.filename msg.lineno msg.functionname
      ++ endl, ?_⟩
  unfold print_own
  cases msg.text.isEmpty <;> simp [String.append_assoc]

end Errors

namespace Errors

/-- C10, as stated, fails: an error without a stored cause whose message text
quotes the separating line is printed with that line in the output. -/
theorem cause_line_without_cause :
    quoting_error.cause.is_set = false ∧
    quoting_error.rethrow_cause = .ok () ∧
    print sample_backtraces quoting_error
      = "origin:\nrun in game.cpp\nopenage::error::Error: seen before:\nThe above exception was the direct cause of the following exception:\n" ∧
    Occurs cause_line_in_output (print sample_backtraces quoting_error) := by
  have h : print sample_backtraces quoting_error
      = "origin:\nrun in game.cpp\nopenage::error::Error: seen before:\nThe above exception was the direct cause of the following exception:\n" := by
    rw [print_eq]
    decide
  refine ⟨rfl, rfl, h, ?_⟩
  rw [h]
  exact ⟨"origin:\nrun in game.cpp\nopenage::error::Error: seen before:".data, [], by decide⟩

/-- C10, amended: when `e` has a stored cause, the output is the cause's own
output, then the separating line between line ends, then the part for `e`
itself, so it contains the line and the cause's output precedes it; when `e`
has no stored cause, the output is only the part for `e` itself (backtrace or
`origin:`, location, type name, message), so the line is in the output only
where those texts hold it; and the output always ends with `e.type_name()`,
followed by `": "` and the message text exactly when that text is non-empty. -/
theorem print_shape {B : Type} (K : Backtraces B) (e : Error B) :
    (e.cause.is_set = true →
      print K e = (print_cause K e.cause).1 ++ (endl ++ cause_line ++ endl ++ endl)
        ++ print_own K e.msg e.backtrace e.type_name ∧
      Occurs cause_line_in_output (print K e)) ∧
    (∀ c, e.cause = .error c → (print_cause K e.cause).1 = print K c ++ endl) ∧
    (e.cause.is_set = false → print K e = print_own K e.msg e.backtrace e.type_name) ∧
    EndsWith (print K e)
      (e.type_name ++ if e.msg.text.isEmpty then "" else ": " ++ e.msg.text) := by
  refine ⟨?_, ?_, ?_, ?_⟩
  · intro h
    have h1 : print K e = (print_cause K e.cause).1 ++ (endl ++ cause_line ++ endl ++ endl)
        ++ print_own K e.msg e.backtrace e.type_name := by
      rw [print_eq, had_a_cause_eq, h]
      simp
    refine ⟨h1, ?_⟩
    rw [h1]
    refine ⟨(print_cause K e.cause).1.data,
      endl.data ++ (print_own K e.msg e.backtrace e.type_name).data, ?_⟩
    simp [cause_line_in_output, String.data_append, List.append_assoc]
  · intro c hc
    rw [hc, print_cause]
  · intro h
    have h0 : e.cause = .null := by
      cases hc : e.cause <;> simp [hc, ExceptionPtr.is_set] at h
      rfl
    rw [print_eq, h0]
    simp [print_cause]
  · obtain ⟨pre, hpre⟩ := print_own_eq K e.msg e.backtrace e.type_name
    rw [print_eq, hpre]
    refine ⟨((print_cause K e.cause).1
      ++ (if (print_cause K e.cause).2 then endl ++ cause_line ++ endl ++ endl else "")
      ++ pre).data, ?_⟩
    simp [String.data_append, List.append_assoc]

/-- C10, amended, on an error whose cause is a standard exception. -/
theorem print_shape_witness :
    Occurs cause_line_in_output (print sample_backtraces
      (.mk ⟨"game.cpp", 12, "run", "no data"⟩ none (.std_exception "std::out_of_range" "at")
        "openage::error::Error")) :=
  ((print_shape sample_backtraces
      (.mk ⟨"game.cpp", 12, "run", "no data"⟩ none (.std_exception "std::out_of_range" "at")
        "openage::error::Error")).1 rfl).2

end Errors

end Openage
